import Mathlib

/-!
Shallow embedding of the resilient dispatch and subscription engine of the
`poloniex` client package (file `poloniex/__init__.py`): command
classification (`_checkCmd`), nonce sequencing (the `nonce` property and its
seeding), response classification (`_handleReturned`), the retry decorator
(`_retry`), the dispatch orchestration (`__call__`), and the websocket
message demultiplexer (`PoloniexSocketed.on_message`).

Python dictionaries are modelled as association lists with in-place update
semantics, Python exceptions as an inductive error type carrying the
exception class and message, and machine integers as `Int` (nonces fit in
64 bits in practice; the code performs no wraparound arithmetic).
-/

/-- The module level list PUBLIC_COMMANDS. -/
def PUBLIC_COMMANDS : List String :=
  ["returnTicker",
   "return24hVolume",
   "returnOrderBook",
   "marketTradeHist",
   "returnChartData",
   "returnCurrencies",
   "returnLoanOrders"]

/-- The module level list PRIVATE_COMMANDS. -/
def PRIVATE_COMMANDS : List String :=
  ["returnBalances",
   "returnCompleteBalances",
   "returnDepositAddresses",
   "generateNewAddress",
   "returnDepositsWithdrawals",
   "returnOpenOrders",
   "returnTradeHistory",
   "returnAvailableAccountBalances",
   "returnTradableBalances",
   "returnOpenLoanOffers",
   "returnOrderTrades",
   "returnOrderStatus",
   "returnActiveLoans",
   "returnLendingHistory",
   "createLoanOffer",
   "cancelLoanOffer",
   "toggleAutoRenew",
   "buy",
   "sell",
   "cancelOrder",
   "cancelAllOrders",
   "moveOrder",
   "withdraw",
   "returnFeeInfo",
   "transferBalance",
   "returnMarginAccountSummary",
   "marginBuy",
   "marginSell",
   "getMarginPosition",
   "closeMarginPosition"]

/-- A raised Python exception, by class and message.  `PoloniexError` and
`RetryException` derive from `Exception`; `RetryException` derives from
`PoloniexError`; `RequestException` is the requests library class caught by
the retry decorator.  `otherExc` stands for interpreter level errors such as
`KeyError`, `IndexError` or `ValueError`. -/
inductive PyExc where
  | poloniexError (msg : String)
  | requestException (msg : String)
  | retryException (msg : String)
  | otherExc
  deriving DecidableEq, Repr

/-- Python truthiness of the `key` / `secret` attributes: the constructor
default is `False` (modelled `none`) and an empty string is also falsy. -/
def truthy : Option String → Bool
  | none => false
  | some s => !(s == "")

/-- `PoloniexBase._checkCmd`: membership in PRIVATE_COMMANDS is tested first;
a private command without truthy key and secret raises `PoloniexError`, an
unknown command raises `PoloniexError` with the invalid command message. -/
def _checkCmd (key secret : Option String) (command : String) :
    Except PyExc String :=
  if command ∈ PRIVATE_COMMANDS then
    if !(truthy key) || !(truthy secret) then
      .error (.poloniexError
        ("An Api Key and Secret needed for command " ++ command))
    else
      .ok "Private"
  else if command ∈ PUBLIC_COMMANDS then
    .ok "Public"
  else
    .error (.poloniexError ("Invalid Command!: " ++ command))

/-- The fixed increment of the `nonce` property (`self._nonce += 42`). -/
def nonceStride : Int := 42

/-- The `nonce` property: increments the stored counter by 42 and returns
the new value.  The pair is the returned value and the updated `_nonce`. -/
def nonceRead (s : Int) : Int × Int := (s + nonceStride, s + nonceStride)

/-- The constructor seed
`self._nonce = int("{:.6f}".format(time()).replace(".", ""))`: the current
wall clock time, `secs` whole seconds plus `micros` microseconds
(`micros < 1000000`), rendered as one integer with microsecond resolution. -/
def initialNonce (secs micros : Nat) : Int := secs * 1000000 + micros

/-- The resynchronization assignment in `_handleReturned`
(`self._nonce = int(out["error"].split(".")[0].split()[-1])`): the counter
is overwritten with the server reported value. -/
def resyncNonce (_s v : Int) : Int := v

/-- Occurrence of `needle` as a contiguous sublist of `s` (Python
`needle in s` on strings, for a nonempty needle). -/
def containsSub (s needle : List Char) : Bool :=
  match s with
  | [] => needle.isEmpty
  | _ :: t => needle.isPrefixOf s || containsSub t needle

/-- Python substring test `needle in s` for a nonempty needle. -/
def strContains (s needle : String) : Bool :=
  containsSub s.toList needle.toList

/-- ASCII lowercasing of one character (Python `str.lower` restricted to
the ASCII range, which covers every string the code compares). -/
def lowerChar (c : Char) : Char :=
  if 'A' ≤ c && c ≤ 'Z' then Char.ofNat (c.toNat + 32) else c

/-- Python `str.lower` over the characters of a string. -/
def strLower (s : String) : String :=
  String.mk (s.toList.map lowerChar)

/-- The characters before the first full stop: `err.split(".")[0]`. -/
def takeUntilDot : List Char → List Char
  | [] => []
  | c :: t => if c = '.' then [] else c :: takeUntilDot t

/-- Split a character list at every character satisfying `p`, keeping
empty pieces (the raw split that Python `str.split()` filters). -/
def splitPred (p : Char → Bool) : List Char → List (List Char)
  | [] => [[]]
  | c :: t =>
    let r := splitPred p t
    if p c then [] :: r
    else
      match r with
      | [] => [[c]]
      | w :: ws => (c :: w) :: ws

/-- Python `str.split()` with no argument: split on whitespace runs and
discard empty pieces. -/
def pyWords (s : List Char) : List (List Char) :=
  (splitPred Char.isWhitespace s).filter (fun w => !w.isEmpty)

/-- Digit-list accumulator for `pyInt`. -/
def digitsToNatAux (acc : Nat) : List Char → Option Nat
  | [] => some acc
  | c :: t =>
    if c.isDigit then digitsToNatAux (acc * 10 + (c.toNat - 48)) t else none

/-- The digits of a nonempty character list as a natural number. -/
def digitsToNat (l : List Char) : Option Nat :=
  match l with
  | [] => none
  | _ => digitsToNatAux 0 l

/-- Python `int(w)` on a whitespace-free word: optional sign followed by
decimal digits; `none` models the `ValueError` on anything else. -/
def pyInt : List Char → Option Int
  | [] => none
  | c :: t =>
    if c = '-' then (digitsToNat t).map (fun n => -(n : Int))
    else if c = '+' then (digitsToNat t).map (fun n => (n : Int))
    else (digitsToNat (c :: t)).map (fun n => (n : Int))

/-- `int(err.split(".")[0].split()[-1])`: take the text before the first
full stop, split it on whitespace discarding empties, parse the last word
as an integer.  `none` models the `IndexError` / `ValueError` raised when
there is no last word or it is not numeric. -/
def extractNonce (err : String) : Option Int :=
  match (pyWords (takeUntilDot err.toList)).getLast? with
  | none => none
  | some w => pyInt w

/-- The decoded body of an HTTP response: `badJson` models text that fails
JSON decoding; `obj f` models a decoded JSON object whose `error` field is
`f` (absent when `none`). -/
inductive Body where
  | badJson
  | obj (errorField : Option String)
  deriving DecidableEq, Repr

/-- A `requests` response as consumed by `_handleReturned`. -/
structure Response where
  status_code : Nat
  body : Body
  deriving DecidableEq, Repr

/-- The Cloudflare gateway status test of `_handleReturned`:
`status == 502 or status == 504 or status in range(520, 527, 1)`. -/
def isBadGateway (s : Nat) : Bool :=
  s == 502 || s == 504 || (520 ≤ s && s < 527)

/-- `PoloniexBase._handleReturned`, with the `_nonce` attribute threaded
explicitly.  Returns the decoded body or the raised exception, together
with the `_nonce` value after the call (changed only by the nonce
resynchronization branch). -/
def _handleReturned (nonce : Int) (r : Response) :
    Except PyExc Body × Int :=
  if isBadGateway r.status_code then
    (.error (.requestException
      ("Poloniex Network Error " ++ toString r.status_code)), nonce)
  else
    match r.body with
    | .badJson => (.error (.poloniexError "Invalid json response returned"), nonce)
    | .obj none => (.ok (.obj none), nonce)
    | .obj (some err) =>
      if strContains err "Nonce must be greater" then
        match extractNonce err with
        | some v =>
          (.error (.requestException ("PoloniexError " ++ err)), resyncNonce nonce v)
        | none => (.error .otherExc, nonce)
      else if strContains (strLower err) "please try again" then
        (.error (.requestException ("PoloniexError " ++ err)), nonce)
      else
        (.error (.poloniexError err), nonce)

/-- Outcome of the `_retry` decorator around one wrapped function:
`ok` is a normal return, `raised` an exception the decorator does not
catch (only `RequestException` is caught), `exhausted` the
`RetryException` raised when the delay sequence runs out (it records the
accumulated `problems` list logged at that point, the exception message
built from the last problem, the number of attempts made, and the sleeps
performed in order), and `noneReturn` the implicit `None` of an empty
delay sequence.  `attempts` and `sleeps` are recorded on every outcome. -/
inductive RetryOutcome (α : Type) where
  | ok (a : α) (attempts : Nat) (sleeps : List Nat)
  | raised (e : PyExc) (attempts : Nat) (sleeps : List Nat)
  | exhausted (problems : List String) (excMsg : String)
      (attempts : Nat) (sleeps : List Nat)
  | noneReturn
  deriving DecidableEq, Repr

/-- Record one `sleep(delay)` in front of an outcome. -/
def addSleep (d : Nat) : RetryOutcome α → RetryOutcome α
  | .ok a k s => .ok a k (d :: s)
  | .raised e k s => .raised e k (d :: s)
  | .exhausted p m k s => .exhausted p m k (d :: s)
  | .noneReturn => .noneReturn

/-- The `for delay in _chain(retryDelays, [None])` loop of `_retry`:
attempt `f k`; on a normal return or an uncaught exception stop; on a
`RequestException` append it to `problems`, and either raise
`RetryException` when the delay is `None` or sleep and recurse. -/
def retryLoop (f : Nat → Except PyExc α) (probs : List String) (k : Nat) :
    List (Option Nat) → RetryOutcome α
  | [] => .noneReturn
  | d :: rest =>
    match f k with
    | .ok a => .ok a (k + 1) []
    | .error (.requestException m) =>
      match d with
      | none =>
        .exhausted (probs ++ [m]) ("retryDelays exhausted " ++ m) (k + 1) []
      | some dl => addSleep dl (retryLoop f (probs ++ [m]) (k + 1) rest)
    | .error e => .raised e (k + 1) []

/-- The module level tuple `retryDelays = (0, 2, 5, 30)`, chained with
`[None]` as `_retry` iterates it. -/
def retryDelaysChain : List (Option Nat) :=
  [some 0, some 2, some 5, some 30, none]

/-- The `_retry` decorator applied to a wrapped function, where `f k` is
the outcome of the k-th attempt (0-based). -/
def retrying (f : Nat → Except PyExc α) : RetryOutcome α :=
  retryLoop f [] 0 retryDelaysChain

/-- Events on the dispatch path of `__call__`, in program order:
the `_checkCmd` classification, the `self.coach.wait()` gate, reading the
`nonce` property, computing the HMAC signature, and the network send. -/
inductive Ev where
  | evCheck
  | evCoachWait
  | evNonce
  | evSign
  | evPost
  | evGet
  deriving DecidableEq, Repr

/-- The attributes of a `PoloniexBase` instance that `__call__`,
`_checkCmd` and `_handleReturned` read or write. -/
structure ClientState where
  key : Option String
  secret : Option String
  hasCoach : Bool
  _nonce : Int
  deriving DecidableEq, Repr

/-- The constructor `PoloniexBase.__init__` restricted to those
attributes, with the wall clock passed as whole seconds and microseconds. -/
def mkClientState (key secret : Option String) (hasCoach : Bool)
    (secs micros : Nat) : ClientState :=
  { key := key, secret := secret, hasCoach := hasCoach,
    _nonce := initialNonce secs micros }

/-- Python dictionary assignment `d[k] = v` on an insertion-ordered
mapping: an existing key keeps its position, a new key is appended. -/
def dictSet (d : List (String × String)) (k v : String) :
    List (String × String) :=
  if (d.lookup k).isSome then
    d.map (fun p => if p.1 = k then (k, v) else p)
  else
    d ++ [(k, v)]

deriving instance DecidableEq for Except

/-- What one invocation of `__call__` did: the events it performed in
order, the caller-supplied `args` dictionary after the call (the code
mutates it in place), the `_nonce` attribute after the call, and the
returned decoded body or raised exception. -/
structure CallResult where
  trace : List Ev
  argsAfter : List (String × String)
  nonceAfter : Int
  result : Except PyExc Body
  deriving DecidableEq, Repr

/-- `PoloniexBase.__call__` for one attempt, with the network response
supplied as `resp`.  Mirrors the source order: `_checkCmd`, then
`args["command"] = command`; on the private path coach wait, then
`args["nonce"] = self.nonce`, then signing, then POST; on the public path
coach wait then GET; both paths end in `_handleReturned`. -/
def pyCall (st : ClientState) (command : String)
    (args : List (String × String)) (resp : Response) : CallResult :=
  match _checkCmd st.key st.secret command with
  | .error e => ⟨[.evCheck], args, st._nonce, .error e⟩
  | .ok cmdType =>
    let args1 := dictSet args "command" command
    if cmdType = "Private" then
      let coachTr : List Ev := if st.hasCoach then [.evCoachWait] else []
      let nval := (nonceRead st._nonce).1
      let n1 := (nonceRead st._nonce).2
      let args2 := dictSet args1 "nonce" (toString nval)
      let hr := _handleReturned n1 resp
      ⟨[Ev.evCheck] ++ coachTr ++ [Ev.evNonce, Ev.evSign, Ev.evPost],
        args2, hr.2, hr.1⟩
    else
      let coachTr : List Ev := if st.hasCoach then [.evCoachWait] else []
      let hr := _handleReturned st._nonce resp
      ⟨[Ev.evCheck] ++ coachTr ++ [Ev.evGet], args1, hr.2, hr.1⟩

/-- A decoded JSON value inside a socket frame: an integer (the default
decoder parses JSON ints as ints) or a string (floats are parsed as
strings under the default `parse_float=str`, and textual fields are
strings). -/
inductive JVal where
  | jnum (n : Int)
  | jstr (s : String)
  deriving DecidableEq, Repr

/-- Python `str(v)` on a frame element. -/
def pyStr : JVal → String
  | .jnum n => toString n
  | .jstr s => s

/-- One entry of the `self.channels` registry as `on_message` reads it:
the channel id string and whether a `callback` key is present. -/
structure ChanInfo where
  id : String
  callback : Bool
  deriving DecidableEq, Repr

/-- `PoloniexSocketed._getChannelName`: the first registered channel name
whose id equals `id`; the Python sentinel `False` for no match is
modelled as `none`. -/
def _getChannelName (channels : List (String × ChanInfo)) (id : String) :
    Option String :=
  (channels.find? (fun p => p.2.id = id)).map (fun p => p.1)

/-- The static part of the registry built by `PoloniexSocketed.__init__`
(the constructor then appends one entry per market from `returnTicker`):
only `heartbeat` has a callback (`self.on_heartbeat`). -/
def initChannels : List (String × ChanInfo) :=
  [("account", ⟨"1000", false⟩),
   ("ticker", ⟨"1002", false⟩),
   ("24hvolume", ⟨"1003", false⟩),
   ("heartbeat", ⟨"1010", true⟩)]

/-- A decoded inbound socket message: a decoded JSON object carrying an
`error` field, or a JSON array frame. -/
inductive InMsg where
  | errObj (e : String)
  | arr (elems : List JVal)
  deriving DecidableEq, Repr

/-- What one invocation of `on_message` did: `errLogged` for the decoded
error object branch, `ackConsumed` for the subscribe (second element 1)
or unsubscribe (second element 0) acknowledgment branch that returns
`False` before any callback, `dispatched calls` for a run to the callback
section (each call is the channel name and the message passed to its
callback; empty when no callback is registered), and `exn` for an
uncaught interpreter exception (`KeyError`, `IndexError`, `TypeError`). -/
inductive MsgResult where
  | errLogged (e : String)
  | ackConsumed (subscribed : Bool)
  | dispatched (calls : List (String × List JVal))
  | exn
  deriving DecidableEq, Repr

/-- The callback section of `on_message` (source lines 746-757): with no
`callback` key nothing happens; a heartbeat message is passed in full to
its callback twice (the branch at line 750 does not return, so the call
at line 757 repeats it); `ticker` and `24hvolume` messages are stripped
of two leading elements; every other channel is stripped of one.  A
channel name of `none` models the Python sentinel `False`, on which
`self.channels[chan]` raises `KeyError`. -/
def dispatchTo (channels : List (String × ChanInfo))
    (chanOpt : Option String) (elems : List JVal) : MsgResult :=
  match chanOpt with
  | none => .exn
  | some chan =>
    match channels.lookup chan with
    | none => .exn
    | some info =>
      if info.callback then
        if chan = "heartbeat" then
          .dispatched [(chan, elems), (chan, elems)]
        else if chan = "ticker" ∨ chan = "24hvolume" then
          .dispatched [(chan, elems.drop 2)]
        else
          .dispatched [(chan, elems.drop 1)]
      else
        .dispatched []

/-- `PoloniexSocketed.on_message` after JSON decoding.  An `error` key in
a decoded object is logged and returned; on an array, Python
`"error" in message` is element membership (and `message["error"]` on a
list raises `TypeError`, modelled `exn`); `message[0]` and `message[1]`
raise `IndexError` on short frames; for every channel other than
`heartbeat` (including an unresolved channel, since `False == "heartbeat"`
is false) a second element equal to the integer 1 or 0 is consumed as an
acknowledgment; everything else reaches the callback section. -/
def on_message (channels : List (String × ChanInfo)) (msg : InMsg) :
    MsgResult :=
  match msg with
  | .errObj e => .errLogged e
  | .arr elems =>
    if elems.contains (.jstr "error") then .exn
    else
      match elems.head? with
      | none => .exn
      | some e0 =>
        let chanOpt := _getChannelName channels (pyStr e0)
        if chanOpt ≠ some "heartbeat" then
          match elems.get? 1 with
          | none => .exn
          | some e1 =>
            if e1 = .jnum 1 then .ackConsumed true
            else if e1 = .jnum 0 then .ackConsumed false
            else dispatchTo channels chanOpt elems
        else dispatchTo channels chanOpt elems

/-- The callbacks a message produced, for stating that a frame never
reaches a registered callback. -/
def callsOf : MsgResult → List (String × List JVal)
  | .dispatched l => l
  | _ => []

/-- `isinstance(problem, RequestException)`: whether an exception is of
the class the retry decorator catches. -/
def isReqExc : PyExc → Bool
  | .requestException _ => true
  | _ => false

example : extractNonce "Nonce must be greater than 1203203. You provided 5." =
    some 1203203 := by decide

example : strContains "abc Nonce must be greater xyz" "Nonce must be greater" =
    true := by decide

example : strContains "nonce must be greater than 3." "Nonce must be greater" =
    false := by decide

/-- Claim C1: each read of the nonce property returns a value strictly
greater than the previously returned value, the counter advancing by the
fixed stride 42 (greater than 1); the counter is seeded once at
construction from the current wall clock time rendered as an integer with
microsecond resolution; and after the counter is resynchronized to a
server reported value v, the next nonce read yields v plus the stride,
hence at least v plus the stride, never less. -/
theorem claim_C1 (key secret : Option String) (hasCoach : Bool)
    (secs micros : Nat) (s v : Int) :
    1 < nonceStride
    ∧ (mkClientState key secret hasCoach secs micros)._nonce
        = (secs : Int) * 1000000 + (micros : Int)
    ∧ s < (nonceRead s).1
    ∧ (nonceRead s).2 = (nonceRead s).1
    ∧ (nonceRead s).1 < (nonceRead (nonceRead s).2).1
    ∧ (nonceRead s).1 = s + nonceStride
    ∧ v + nonceStride ≤ (nonceRead (resyncNonce s v)).1 := by
  refine ⟨by norm_num [nonceStride], rfl, ?_, rfl, ?_, rfl, ?_⟩ <;>
    (simp only [nonceRead, resyncNonce, nonceStride]; omega)

/-- A concrete private dispatch used in claims about `__call__`: key "k",
secret "s", coach enabled, `_nonce` 10. -/
def cst : ClientState := ⟨some "k", some "s", true, 10⟩

/-- A response whose decoded body is an error free JSON object. -/
def okResp : Response := ⟨200, .obj none⟩

/-- Claim C2 counterexample: on the concrete private dispatch of command
"buy", the event trace of `__call__` is
check, coach wait, nonce, sign, POST — the coach wait precedes obtaining
the nonce and computing the signature, so it is false that nonce and
signature generation happen before the blocking wait. -/
theorem claim_C2_cex :
    ¬ ((pyCall cst "buy" [] okResp).trace.indexOf .evNonce <
        (pyCall cst "buy" [] okResp).trace.indexOf .evCoachWait
      ∧ (pyCall cst "buy" [] okResp).trace.indexOf .evSign <
        (pyCall cst "buy" [] okResp).trace.indexOf .evCoachWait) := by
  decide

/-- Claim C2 (amended): for every Private command dispatched via
`__call__` with the coach enabled, the blocking wait on the rate
coordinator happens first, argument preparation — obtaining the nonce and
computing the signature — happens after that wait, and the network POST
is issued last. -/
theorem claim_C2 (st : ClientState) (command : String)
    (args : List (String × String)) (resp : Response)
    (hpriv : _checkCmd st.key st.secret command = .ok "Private")
    (hc : st.hasCoach = true) :
    (pyCall st command args resp).trace =
      [.evCheck, .evCoachWait, .evNonce, .evSign, .evPost]
    ∧ (pyCall st command args resp).trace.indexOf .evCoachWait <
        (pyCall st command args resp).trace.indexOf .evNonce
    ∧ (pyCall st command args resp).trace.indexOf .evNonce <
        (pyCall st command args resp).trace.indexOf .evSign
    ∧ (pyCall st command args resp).trace.indexOf .evSign <
        (pyCall st command args resp).trace.indexOf .evPost := by
  have htr : (pyCall st command args resp).trace =
      [.evCheck, .evCoachWait, .evNonce, .evSign, .evPost] := by
    simp [pyCall, hpriv, hc]
  refine ⟨htr, ?_, ?_, ?_⟩ <;> rw [htr] <;> decide

/-- Witness for claim C2 at the concrete private dispatch. -/
theorem claim_C2_witness :
    (pyCall cst "buy" [] okResp).trace =
      [.evCheck, .evCoachWait, .evNonce, .evSign, .evPost]
    ∧ (pyCall cst "buy" [] okResp).trace.indexOf .evCoachWait <
        (pyCall cst "buy" [] okResp).trace.indexOf .evNonce
    ∧ (pyCall cst "buy" [] okResp).trace.indexOf .evNonce <
        (pyCall cst "buy" [] okResp).trace.indexOf .evSign
    ∧ (pyCall cst "buy" [] okResp).trace.indexOf .evSign <
        (pyCall cst "buy" [] okResp).trace.indexOf .evPost :=
  claim_C2 cst "buy" [] okResp (by decide) rfl

/-- The lowercase variant of the nonce error message, for exercising the
case sensitivity of the match in `_handleReturned`. -/
def lcNonceErr : String := "nonce must be greater than 100. You provided 50."

/-- Claim C3 counterexample: the message "nonce must be greater than 100.
You provided 50." contains the substring "nonce must be greater" under a
case insensitive comparison, yet `_handleReturned` classifies it as fatal
(`PoloniexError`, not the retryable `RequestException`) and leaves the
nonce counter unchanged at 7, because the code compares the substring
"Nonce must be greater" case sensitively. -/
theorem claim_C3_cex :
    strContains (strLower lcNonceErr) (strLower "nonce must be greater") = true
    ∧ _handleReturned 7 ⟨200, .obj (some lcNonceErr)⟩ =
        (.error (.poloniexError lcNonceErr), 7) := by
  decide

/-- Claim C3 (amended): when a decoded response body contains an error
message matching the substring "Nonce must be greater" case sensitively
(and the HTTP status is not a retried gateway status), the dispatcher
extracts the authoritative nonce value X from the message, overwrites the
nonce counter with X, raises the retryable exception type, and the next
nonce read — the one used by the retried request — is at least X. -/
theorem claim_C3 (nonce : Int) (status : Nat) (err : String) (X : Int)
    (hs : isBadGateway status = false)
    (hm : strContains err "Nonce must be greater" = true)
    (hx : extractNonce err = some X) :
    _handleReturned nonce ⟨status, .obj (some err)⟩ =
      (.error (.requestException ("PoloniexError " ++ err)), X)
    ∧ X ≤ (nonceRead X).1 := by
  constructor
  · simp [_handleReturned, hs, hm, hx, resyncNonce]
  · simp only [nonceRead, nonceStride]
    omega

/-- Witness for claim C3 at the canonical nonce error message. -/
theorem claim_C3_witness :
    _handleReturned 7
        ⟨200, .obj (some "Nonce must be greater than 100. You provided 50.")⟩ =
      (.error (.requestException
        "PoloniexError Nonce must be greater than 100. You provided 50."), 100)
    ∧ (100 : Int) ≤ (nonceRead 100).1 :=
  claim_C3 7 200 "Nonce must be greater than 100. You provided 50." 100
    (by decide) (by decide) (by decide)

/-- One `_retry` iteration on an uncaught exception: only
`RequestException` is caught, so any other exception propagates at once,
with no sleep taken and the loop stopped. -/
theorem retryLoop_step_raised {α : Type} (g : Nat → Except PyExc α)
    (e : PyExc) (k : Nat) (probs : List String) (d : Option Nat)
    (rest : List (Option Nat))
    (hg : g k = .error e) (he : isReqExc e = false) :
    retryLoop g probs k (d :: rest) = .raised e (k + 1) [] := by
  cases e with
  | requestException msg => simp [isReqExc] at he
  | poloniexError msg => simp [retryLoop, hg]
  | retryException msg => simp [retryLoop, hg]
  | otherExc => simp [retryLoop, hg]

/-- One `_retry` iteration on a caught `RequestException` with a delay
still available: record the problem, sleep the delay, continue. -/
theorem retryLoop_step_retry {α : Type} (g : Nat → Except PyExc α)
    (m : String) (k : Nat) (probs : List String) (d : Nat)
    (rest : List (Option Nat))
    (hg : g k = .error (.requestException m)) :
    retryLoop g probs k (some d :: rest) =
      addSleep d (retryLoop g (probs ++ [m]) (k + 1) rest) := by
  simp [retryLoop, hg]

/-- Claim C4: a response with HTTP status 502, 504 or any status from 520
through 526 inclusive is classified retryable; when every attempt fails
retryably the retry wrapper makes exactly five attempts, sleeping the
delays 0, 2, 5, 30 in order between successive attempts, then fails with
the `RetryException` raised when the delays are exhausted, carrying the
accumulated prior failures; and an uncaught (non retryable) failure at
attempt j stops the loop at once, with only the first j delays consumed. -/
theorem claim_C4 (s : Nat) (nonce : Int) (body : Body) (m : Nat → String)
    (f g : Nat → Except PyExc Body) (e : PyExc) (j : Nat) :
    ((s = 502 ∨ s = 504 ∨ (520 ≤ s ∧ s ≤ 526)) →
      _handleReturned nonce ⟨s, body⟩ =
        (.error (.requestException ("Poloniex Network Error " ++ toString s)),
          nonce))
    ∧ ((∀ k, f k = .error (.requestException (m k))) →
        retrying f = .exhausted [m 0, m 1, m 2, m 3, m 4]
          ("retryDelays exhausted " ++ m 4) 5 [0, 2, 5, 30])
    ∧ (j < 5 → (∀ k, k < j → g k = .error (.requestException (m k))) →
        g j = .error e → isReqExc e = false →
        retrying g = .raised e (j + 1) (List.take j [0, 2, 5, 30])) := by
  refine ⟨?_, ?_, ?_⟩
  · rintro (rfl | rfl | ⟨h1, h2⟩)
    · simp [_handleReturned, isBadGateway]
    · simp [_handleReturned, isBadGateway]
    · have hbg : isBadGateway s = true := by
        simp only [isBadGateway, Bool.or_eq_true, beq_iff_eq,
          Bool.and_eq_true, decide_eq_true_eq]
        omega
      simp [_handleReturned, hbg]
  · intro h
    simp [retrying, retryDelaysChain, retryLoop, h, addSleep]
  · intro hj5 hk hj he
    interval_cases j
    · rw [retrying, retryDelaysChain, retryLoop_step_raised g e 0 [] _ _ hj he]
      simp
    · rw [retrying, retryDelaysChain,
        retryLoop_step_retry g (m 0) 0 [] 0 _ (hk 0 (by omega)),
        retryLoop_step_raised g e 1 _ _ _ hj he]
      simp [addSleep]
    · rw [retrying, retryDelaysChain,
        retryLoop_step_retry g (m 0) 0 [] 0 _ (hk 0 (by omega)),
        retryLoop_step_retry g (m 1) 1 _ 2 _ (hk 1 (by omega)),
        retryLoop_step_raised g e 2 _ _ _ hj he]
      simp [addSleep]
    · rw [retrying, retryDelaysChain,
        retryLoop_step_retry g (m 0) 0 [] 0 _ (hk 0 (by omega)),
        retryLoop_step_retry g (m 1) 1 _ 2 _ (hk 1 (by omega)),
        retryLoop_step_retry g (m 2) 2 _ 5 _ (hk 2 (by omega)),
        retryLoop_step_raised g e 3 _ _ _ hj he]
      simp [addSleep]
    · rw [retrying, retryDelaysChain,
        retryLoop_step_retry g (m 0) 0 [] 0 _ (hk 0 (by omega)),
        retryLoop_step_retry g (m 1) 1 _ 2 _ (hk 1 (by omega)),
        retryLoop_step_retry g (m 2) 2 _ 5 _ (hk 2 (by omega)),
        retryLoop_step_retry g (m 3) 3 _ 30 _ (hk 3 (by omega)),
        retryLoop_step_raised g e 4 _ _ _ hj he]
      simp [addSleep]

/-- Witness for claim C4: status 502 is retryable; five attempts all
failing retryably sleep 0, 2, 5, 30 and exhaust; a fatal failure at the
third attempt stops after sleeping only 0 and 2. -/
theorem claim_C4_witness :
    _handleReturned 0 ⟨502, .badJson⟩ =
      (.error (.requestException "Poloniex Network Error 502"), 0)
    ∧ retrying
        (fun _ => (.error (.requestException "x") : Except PyExc Body)) =
        .exhausted ["x", "x", "x", "x", "x"] "retryDelays exhausted x" 5
          [0, 2, 5, 30]
    ∧ retrying
        (fun k =>
          if k < 2 then (.error (.requestException "x") : Except PyExc Body)
          else .error (.poloniexError "f")) =
        .raised (.poloniexError "f") 3 [0, 2] := by
  have h := claim_C4 502 0 .badJson (fun _ => "x")
    (fun _ => .error (.requestException "x"))
    (fun k =>
      if k < 2 then (.error (.requestException "x") : Except PyExc Body)
      else .error (.poloniexError "f"))
    (.poloniexError "f") 2
  refine ⟨h.1 (Or.inl rfl), h.2.1 (fun k => rfl), ?_⟩
  have h3 := h.2.2 (by omega) (fun k hk => by interval_cases k <;> rfl) rfl rfl
  simpa using h3

/-- Claim C5: a command in neither command set makes `__call__` raise the
invalid command `PoloniexError`, and a private command without truthy key
or secret makes it raise the missing credentials `PoloniexError`; in both
cases the only event performed is the classification — no coach wait and
no network GET or POST — and the retry decorator propagates the failure
on the first attempt, with no retry and no sleep. -/
theorem claim_C5 (st : ClientState) (command : String)
    (args : List (String × String)) (resp : Response) :
    (command ∉ PRIVATE_COMMANDS → command ∉ PUBLIC_COMMANDS →
      (pyCall st command args resp).result =
        .error (.poloniexError ("Invalid Command!: " ++ command))
      ∧ (pyCall st command args resp).trace = [.evCheck]
      ∧ Ev.evCoachWait ∉ (pyCall st command args resp).trace
      ∧ Ev.evPost ∉ (pyCall st command args resp).trace
      ∧ Ev.evGet ∉ (pyCall st command args resp).trace
      ∧ retrying (fun _ => (pyCall st command args resp).result) =
          .raised (.poloniexError ("Invalid Command!: " ++ command)) 1 [])
    ∧ (command ∈ PRIVATE_COMMANDS →
        (truthy st.key = false ∨ truthy st.secret = false) →
      (pyCall st command args resp).result =
        .error (.poloniexError
          ("An Api Key and Secret needed for command " ++ command))
      ∧ (pyCall st command args resp).trace = [.evCheck]
      ∧ Ev.evCoachWait ∉ (pyCall st command args resp).trace
      ∧ Ev.evPost ∉ (pyCall st command args resp).trace
      ∧ Ev.evGet ∉ (pyCall st command args resp).trace
      ∧ retrying (fun _ => (pyCall st command args resp).result) =
          .raised (.poloniexError
            ("An Api Key and Secret needed for command " ++ command)) 1 []) := by
  constructor
  · intro h1 h2
    have hres : pyCall st command args resp =
        ⟨[.evCheck], args, st._nonce,
          .error (.poloniexError ("Invalid Command!: " ++ command))⟩ := by
      simp [pyCall, _checkCmd, h1, h2]
    refine ⟨by rw [hres], by rw [hres], by rw [hres]; simp,
      by rw [hres]; simp, by rw [hres]; simp, ?_⟩
    rw [hres]
    exact retryLoop_step_raised _ _ 0 [] _ _ rfl rfl
  · intro h1 h2
    have hcred : (!(truthy st.key) || !(truthy st.secret)) = true := by
      rcases h2 with h | h <;> simp [h]
    have hres : pyCall st command args resp =
        ⟨[.evCheck], args, st._nonce,
          .error (.poloniexError
            ("An Api Key and Secret needed for command " ++ command))⟩ := by
      simp [pyCall, _checkCmd, h1, hcred]
    refine ⟨by rw [hres], by rw [hres], by rw [hres]; simp,
      by rw [hres]; simp, by rw [hres]; simp, ?_⟩
    rw [hres]
    exact retryLoop_step_raised _ _ 0 [] _ _ rfl rfl

/-- Witness for claim C5: the unknown command "bogus" and the private
command "buy" with no key. -/
theorem claim_C5_witness :
    ((pyCall cst "bogus" [] okResp).result =
        .error (.poloniexError "Invalid Command!: bogus")
      ∧ (pyCall cst "bogus" [] okResp).trace = [.evCheck]
      ∧ Ev.evCoachWait ∉ (pyCall cst "bogus" [] okResp).trace
      ∧ Ev.evPost ∉ (pyCall cst "bogus" [] okResp).trace
      ∧ Ev.evGet ∉ (pyCall cst "bogus" [] okResp).trace
      ∧ retrying (fun _ => (pyCall cst "bogus" [] okResp).result) =
          .raised (.poloniexError "Invalid Command!: bogus") 1 [])
    ∧ ((pyCall ⟨none, some "s", true, 10⟩ "buy" [] okResp).result =
        .error (.poloniexError "An Api Key and Secret needed for command buy")
      ∧ (pyCall ⟨none, some "s", true, 10⟩ "buy" [] okResp).trace = [.evCheck]
      ∧ Ev.evCoachWait ∉ (pyCall ⟨none, some "s", true, 10⟩ "buy" [] okResp).trace
      ∧ Ev.evPost ∉ (pyCall ⟨none, some "s", true, 10⟩ "buy" [] okResp).trace
      ∧ Ev.evGet ∉ (pyCall ⟨none, some "s", true, 10⟩ "buy" [] okResp).trace
      ∧ retrying (fun _ =>
            (pyCall ⟨none, some "s", true, 10⟩ "buy" [] okResp).result) =
          .raised
            (.poloniexError "An Api Key and Secret needed for command buy")
            1 []) :=
  ⟨(claim_C5 cst "bogus" [] okResp).1 (by decide) (by decide),
   (claim_C5 ⟨none, some "s", true, 10⟩ "buy" [] okResp).2 (by decide)
     (Or.inl rfl)⟩

/-- Claim C6 (code bug evidence): on the registry built at construction,
an inbound frame whose leading channel identifier 999 matches no
registered channel reaches `self.channels[False]` and raises `KeyError`
(`exn`) instead of being logged and dropped, whenever its second element
is not the acknowledgment marker 1 or 0; only the acknowledgment shaped
unknown frames are consumed silently. -/
theorem claim_C6_bug :
    _getChannelName initChannels "999" = none
    ∧ on_message initChannels (.arr [.jnum 999, .jnum 7]) = .exn
    ∧ on_message initChannels (.arr [.jnum 999, .jnum 1]) = .ackConsumed true := by
  decide

/-- A registry as the constructor plus `setSubscribes` / `setCallback`
leave it: the static channels with callbacks attached to `ticker`,
`24hvolume` and `heartbeat`, and one market channel with a callback. -/
def testChannels : List (String × ChanInfo) :=
  [("account", ⟨"1000", false⟩),
   ("ticker", ⟨"1002", true⟩),
   ("24hvolume", ⟨"1003", true⟩),
   ("heartbeat", ⟨"1010", true⟩),
   ("BTC_ETH", ⟨"148", true⟩)]

/-- Claim C7: on a registered non heartbeat channel a frame whose second
element is the integer 1 or 0 is consumed without invoking any callback;
otherwise a frame for `ticker` or `24hvolume` with a registered callback
invokes it with the frame stripped of its two leading elements, a frame
for any other non heartbeat channel invokes it with the frame stripped of
only the leading channel id (sequence preserved), and a heartbeat frame
is passed to the heartbeat callback in full on every invocation. -/
theorem claim_C7 (channels : List (String × ChanInfo)) (chan : String)
    (info : ChanInfo) (e0 e1 : JVal) (rest : List JVal)
    (herr : (e0 :: e1 :: rest).contains (JVal.jstr "error") = false)
    (hch : _getChannelName channels (pyStr e0) = some chan)
    (hlk : channels.lookup chan = some info) :
    (chan ≠ "heartbeat" → e1 = .jnum 1 →
      on_message channels (.arr (e0 :: e1 :: rest)) = .ackConsumed true
      ∧ callsOf (on_message channels (.arr (e0 :: e1 :: rest))) = [])
    ∧ (chan ≠ "heartbeat" → e1 = .jnum 0 →
      on_message channels (.arr (e0 :: e1 :: rest)) = .ackConsumed false
      ∧ callsOf (on_message channels (.arr (e0 :: e1 :: rest))) = [])
    ∧ (info.callback = true → e1 ≠ .jnum 1 → e1 ≠ .jnum 0 →
        (chan = "ticker" ∨ chan = "24hvolume") →
      on_message channels (.arr (e0 :: e1 :: rest)) =
        .dispatched [(chan, rest)])
    ∧ (info.callback = true → e1 ≠ .jnum 1 → e1 ≠ .jnum 0 →
        chan ≠ "heartbeat" → chan ≠ "ticker" → chan ≠ "24hvolume" →
      on_message channels (.arr (e0 :: e1 :: rest)) =
        .dispatched [(chan, e1 :: rest)])
    ∧ (info.callback = true → chan = "heartbeat" →
      on_message channels (.arr (e0 :: e1 :: rest)) =
        .dispatched [(chan, e0 :: e1 :: rest), (chan, e0 :: e1 :: rest)]
      ∧ ∀ c ∈ callsOf (on_message channels (.arr (e0 :: e1 :: rest))),
          c = (chan, e0 :: e1 :: rest)) := by
  refine ⟨?_, ?_, ?_, ?_, ?_⟩
  · intro hhb he1
    subst he1
    have hmsg : on_message channels (.arr (e0 :: .jnum 1 :: rest)) =
        .ackConsumed true := by
      simp [on_message, hch, hhb]
      simpa using herr
    exact ⟨hmsg, by rw [hmsg]; rfl⟩
  · intro hhb he1
    subst he1
    have hmsg : on_message channels (.arr (e0 :: .jnum 0 :: rest)) =
        .ackConsumed false := by
      simp [on_message, hch, hhb]
      simpa using herr
    exact ⟨hmsg, by rw [hmsg]; rfl⟩
  · intro hcb h1 h0 hc
    rcases hc with rfl | rfl <;>
      (simp [on_message, hch, dispatchTo, hlk, hcb, h1, h0]
       simpa using herr)
  · intro hcb h1 h0 hhb ht hv
    simp [on_message, hch, dispatchTo, hlk, hcb, h1, h0, hhb, ht, hv]
    simpa using herr
  · intro hcb hc
    subst hc
    have hmsg : on_message channels (.arr (e0 :: e1 :: rest)) =
        .dispatched [("heartbeat", e0 :: e1 :: rest),
          ("heartbeat", e0 :: e1 :: rest)] := by
      simp [on_message, hch, dispatchTo, hlk, hcb]
      simpa using herr
    refine ⟨hmsg, ?_⟩
    rw [hmsg]
    intro c hc
    simp only [callsOf, List.mem_cons, List.not_mem_nil, or_false] at hc
    rcases hc with rfl | rfl <;> rfl

/-- Witness for claim C7: on `testChannels`, the frame `[1002, 1]` is an
acknowledgment with no callback; `[1002, 7, "59.5"]` reaches the ticker
callback stripped of two elements; `[148, 7, "t"]` reaches the market
callback stripped of one; `[1010, 5]` reaches the heartbeat callback in
full. -/
theorem claim_C7_witness :
    (on_message testChannels (.arr [.jnum 1002, .jnum 1]) = .ackConsumed true
      ∧ callsOf (on_message testChannels (.arr [.jnum 1002, .jnum 1])) = [])
    ∧ on_message testChannels (.arr [.jnum 1002, .jnum 7, .jstr "59.5"]) =
        .dispatched [("ticker", [.jstr "59.5"])]
    ∧ on_message testChannels (.arr [.jnum 148, .jnum 7, .jstr "t"]) =
        .dispatched [("BTC_ETH", [.jnum 7, .jstr "t"])]
    ∧ (on_message testChannels (.arr [.jnum 1010, .jnum 5]) =
        .dispatched [("heartbeat", [.jnum 1010, .jnum 5]),
          ("heartbeat", [.jnum 1010, .jnum 5])]
      ∧ ∀ c ∈ callsOf (on_message testChannels (.arr [.jnum 1010, .jnum 5])),
          c = ("heartbeat", [.jnum 1010, .jnum 5])) :=
  ⟨(claim_C7 testChannels "ticker" ⟨"1002", true⟩ (.jnum 1002) (.jnum 1) []
      (by decide) (by decide) (by decide)).1 (by decide) rfl,
   (claim_C7 testChannels "ticker" ⟨"1002", true⟩ (.jnum 1002) (.jnum 7)
      [.jstr "59.5"] (by decide) (by decide) (by decide)).2.2.1 rfl
      (by decide) (by decide) (Or.inl rfl),
   (claim_C7 testChannels "BTC_ETH" ⟨"148", true⟩ (.jnum 148) (.jnum 7)
      [.jstr "t"] (by decide) (by decide) (by decide)).2.2.2.1 rfl
      (by decide) (by decide) (by decide) (by decide) (by decide),
   (claim_C7 testChannels "heartbeat" ⟨"1010", true⟩ (.jnum 1010) (.jnum 5)
      [] (by decide) (by decide) (by decide)).2.2.2.2 rfl rfl⟩

/-- Claim C8 counterexample: the caller supplied args mapping is not
unchanged after `__call__` completes — dispatching the public command
"returnTicker" with an empty args mapping leaves it holding the entry
("command", "returnTicker"). -/
theorem claim_C8_cex :
    (pyCall cst "returnTicker" [] okResp).argsAfter =
      [("command", "returnTicker")]
    ∧ (pyCall cst "returnTicker" [] okResp).argsAfter ≠ [] := by
  decide

/-- Claim C8 (amended): `__call__` mutates the caller supplied args
mapping in place: after a Public dispatch it equals the original with
"command" set to the command name, and after a Private dispatch it
additionally has "nonce" set to the nonce used; because the default args
mapping is one shared object, such entries persist into later invocations
that omit args. -/
theorem claim_C8 (st : ClientState) (command : String)
    (args : List (String × String)) (resp : Response) :
    (_checkCmd st.key st.secret command = .ok "Public" →
      (pyCall st command args resp).argsAfter =
        dictSet args "command" command)
    ∧ (_checkCmd st.key st.secret command = .ok "Private" →
      (pyCall st command args resp).argsAfter =
        dictSet (dictSet args "command" command) "nonce"
          (toString (nonceRead st._nonce).1)) := by
  constructor <;> intro h <;> simp [pyCall, h]

/-- Witness for claim C8: a public and a private dispatch from an empty
args mapping. -/
theorem claim_C8_witness :
    (pyCall cst "returnTicker" [] okResp).argsAfter =
      dictSet [] "command" "returnTicker"
    ∧ (pyCall cst "buy" [] okResp).argsAfter =
      dictSet (dictSet [] "command" "buy") "nonce"
        (toString (nonceRead (10 : Int)).1) :=
  ⟨(claim_C8 cst "returnTicker" [] okResp).1 (by decide),
   (claim_C8 cst "buy" [] okResp).2 (by decide)⟩

/-- Claim C9: whenever the registry maps an inbound frame to the
heartbeat channel and a heartbeat callback is registered — as it is by
default at construction, where the heartbeat entry carries
`self.on_heartbeat` — `on_message` invokes the heartbeat callback exactly
twice, both times with the full decoded message including the leading
channel id. -/
theorem claim_C9 (channels : List (String × ChanInfo)) (info : ChanInfo)
    (e0 : JVal) (rest : List JVal)
    (herr : (e0 :: rest).contains (JVal.jstr "error") = false)
    (hch : _getChannelName channels (pyStr e0) = some "heartbeat")
    (hlk : channels.lookup "heartbeat" = some info)
    (hcb : info.callback = true) :
    on_message channels (.arr (e0 :: rest)) =
      .dispatched [("heartbeat", e0 :: rest), ("heartbeat", e0 :: rest)]
    ∧ initChannels.lookup "heartbeat" = some ⟨"1010", true⟩ := by
  constructor
  · simp [on_message, hch, dispatchTo, hlk, hcb]
    simpa using herr
  · decide

/-- Witness for claim C9: the frame `[1010, 5]` on the constructor
registry produces exactly two full message heartbeat callback calls. -/
theorem claim_C9_witness :
    on_message initChannels (.arr [.jnum 1010, .jnum 5]) =
      .dispatched [("heartbeat", [.jnum 1010, .jnum 5]),
        ("heartbeat", [.jnum 1010, .jnum 5])]
    ∧ initChannels.lookup "heartbeat" = some ⟨"1010", true⟩ :=
  claim_C9 initChannels ⟨"1010", true⟩ (.jnum 1010) [.jnum 5]
    (by decide) (by decide) (by decide) rfl

/-- Claim C10: on a registered non heartbeat channel, any frame whose
second element equals the integer 1 or 0 is consumed as a subscribe or
unsubscribe acknowledgment and produces no callback call — including a
genuine data frame whose sequence number happens to be 1 or 0, whatever
payload follows. -/
theorem claim_C10 (channels : List (String × ChanInfo)) (chan : String)
    (e0 e1 : JVal) (rest : List JVal)
    (herr : (e0 :: e1 :: rest).contains (JVal.jstr "error") = false)
    (hch : _getChannelName channels (pyStr e0) = some chan)
    (hhb : chan ≠ "heartbeat")
    (h1 : e1 = .jnum 1 ∨ e1 = .jnum 0) :
    (on_message channels (.arr (e0 :: e1 :: rest)) = .ackConsumed true
      ∨ on_message channels (.arr (e0 :: e1 :: rest)) = .ackConsumed false)
    ∧ callsOf (on_message channels (.arr (e0 :: e1 :: rest))) = [] := by
  rcases h1 with rfl | rfl
  · have hmsg : on_message channels (.arr (e0 :: .jnum 1 :: rest)) =
        .ackConsumed true := by
      simp [on_message, hch, hhb]
      simpa using herr
    exact ⟨Or.inl hmsg, by rw [hmsg]; rfl⟩
  · have hmsg : on_message channels (.arr (e0 :: .jnum 0 :: rest)) =
        .ackConsumed false := by
      simp [on_message, hch, hhb]
      simpa using herr
    exact ⟨Or.inr hmsg, by rw [hmsg]; rfl⟩

/-- Witness for claim C10: a data shaped frame on the market channel
whose sequence number is 1 is swallowed with no callback call. -/
theorem claim_C10_witness :
    (on_message testChannels
        (.arr [.jnum 148, .jnum 1, .jstr "trade", .jstr "0.05"]) =
        .ackConsumed true
      ∨ on_message testChannels
        (.arr [.jnum 148, .jnum 1, .jstr "trade", .jstr "0.05"]) =
        .ackConsumed false)
    ∧ callsOf (on_message testChannels
        (.arr [.jnum 148, .jnum 1, .jstr "trade", .jstr "0.05"])) = [] :=
  claim_C10 testChannels "BTC_ETH" (.jnum 148) (.jnum 1)
    [.jstr "trade", .jstr "0.05"] (by decide) (by decide) (by decide)
    (Or.inl rfl)
